import Mathlib

/-!
Verification of the p2p-hosting data model (src/backend/app/models).

The repository declares SQLAlchemy tables whose behavioural content lives in
their `__table_args__` check constraints, column defaults and relationship
cascade rules.  We embed each relevant table row as a structure (UUID columns
as `Nat`, `Integer` columns as `Int`, `Float` columns as `ℚ`, timestamp
columns as `Int`, nullable columns as `Option`), each table's check-constraint
list as a boolean predicate with SQL three-valued semantics (a constraint on a
NULL value evaluates to UNKNOWN and does not fail), and the persistence
boundary as insert/update operations that accept a row exactly when every
check constraint holds.
-/

namespace P2P

/-- `task.py` `TaskStatus`: the eight task lifecycle states. -/
inductive TaskStatus where
  | pending | queued | running | completed | failed | cancelled | retrying | timeout
deriving DecidableEq, Repr

/-- `task.py` class `Task`: the columns involved in its check constraints and
lifecycle (payload/text columns elided). `Integer` columns are `Int`,
timestamps are `Int`, nullable columns are `Option`. -/
structure Task where
  id : Nat
  status : TaskStatus
  max_retries : Int
  current_retries : Int
  timeout_seconds : Option Int
  scheduled_at : Option Int
  deadline : Option Int
  started_at : Option Int
  completed_at : Option Int
deriving DecidableEq, Repr

/-- The check constraints of `Task.__table_args__` (task.py lines 159-171):
`positive_max_retries`, `positive_current_retries`, `valid_retry_count`,
`positive_timeout`, `valid_completion_time`, `valid_start_time`.
A constraint over a NULL column is UNKNOWN in SQL and does not fail, hence
`Option.all`. -/
def Task.checkConstraints (t : Task) : Bool :=
  decide (0 ≤ t.max_retries) &&
  decide (0 ≤ t.current_retries) &&
  decide (t.current_retries ≤ t.max_retries) &&
  (t.timeout_seconds.all fun v => decide (0 < v)) &&
  (t.completed_at.isNone || t.started_at.isSome) &&
  (t.started_at.all fun st => t.scheduled_at.all fun sc => decide (sc ≤ st))

/-- Persistence boundary for `tasks` (spec §6: writes violating the check
constraints of §3 are rejected): an INSERT stores the row only if every
check constraint holds, otherwise nothing is stored. -/
def insertTask (db : List Task) (t : Task) : Option (List Task) :=
  if Task.checkConstraints t then some (t :: db) else none

/-- Persistence boundary for `tasks`: an UPDATE replaces the row with the
matching primary key only if the new row satisfies every check constraint. -/
def updateTask (db : List Task) (t : Task) : Option (List Task) :=
  if Task.checkConstraints t then
    some (db.map fun u => if u.id = t.id then t else u)
  else none

/-- The retry-count bounds of claim C1 for a single `Task` row. -/
def Task.retryBounds (t : Task) : Prop :=
  0 ≤ t.current_retries ∧ 0 ≤ t.max_retries ∧ t.current_retries ≤ t.max_retries

/-- Every stored `Task` row satisfies the retry-count bounds. -/
def taskStoreRetryBounds (db : List Task) : Prop :=
  ∀ t ∈ db, t.retryBounds

theorem retryBounds_of_checkConstraints {t : Task}
    (h : Task.checkConstraints t = true) : t.retryBounds := by
  unfold Task.checkConstraints at h
  simp only [Bool.and_eq_true, decide_eq_true_eq] at h
  obtain ⟨⟨⟨⟨⟨h1, h2⟩, h3⟩, -⟩, -⟩, -⟩ := h
  exact ⟨h2, h1, h3⟩

/-- C1: for every `Task` record, `current_retries` is between `0` and
`max_retries` inclusive (`current_retries ≥ 0`, `max_retries ≥ 0`,
`current_retries ≤ max_retries`), and every write of a `Task` accepted by the
persistence boundary (INSERT or UPDATE) preserves this invariant of the
store. -/
theorem task_retry_bounds_preserved (db db' : List Task) (t : Task)
    (hinv : taskStoreRetryBounds db)
    (hw : insertTask db t = some db' ∨ updateTask db t = some db') :
    taskStoreRetryBounds db' := by
  by_cases hc : Task.checkConstraints t = true
  · rcases hw with hw | hw
    · simp only [insertTask, hc, if_true, Option.some.injEq] at hw
      subst hw
      intro u hu
      rcases List.mem_cons.mp hu with rfl | hu
      · exact retryBounds_of_checkConstraints hc
      · exact hinv u hu
    · simp only [updateTask, hc, if_true, Option.some.injEq] at hw
      subst hw
      intro u hu
      rcases List.mem_map.mp hu with ⟨v, hv, rfl⟩
      by_cases hid : v.id = t.id
      · simp only [hid, if_true]
        exact retryBounds_of_checkConstraints hc
      · simp only [hid, if_false]
        exact hinv v hv
  · rcases hw with hw | hw
    · simp [insertTask, hc] at hw
    · simp [updateTask, hc] at hw

/-- A concrete well-formed task used to witness C1. -/
def sampleTask : Task :=
  { id := 1, status := .pending, max_retries := 3, current_retries := 0,
    timeout_seconds := some 60, scheduled_at := none, deadline := none,
    started_at := none, completed_at := none }

theorem task_retry_bounds_preserved_witness : taskStoreRetryBounds [sampleTask] :=
  task_retry_bounds_preserved [] [sampleTask] sampleTask
    (fun t ht => absurd ht (List.not_mem_nil t))
    (Or.inl (by decide))

/-- `task.py` class `TaskExecution`: one row per dispatch attempt (text/usage
payload columns other than `cpu_usage_percent` elided; `queued_at` is NOT
NULL with a server default, `started_at`/`completed_at` are nullable). -/
structure TaskExecution where
  id : Nat
  task_id : Nat
  node_id : Option Nat
  execution_number : Int
  status : TaskStatus
  queued_at : Int
  started_at : Option Int
  completed_at : Option Int
  cpu_usage_percent : Option ℚ
  exit_code : Option Int
deriving DecidableEq, Repr

/-- The check constraints of `TaskExecution.__table_args__` (task.py lines
240-252): `positive_execution_number`, `valid_execution_completion`,
`valid_execution_start`, `valid_cpu_usage`.  Note the list has no constraint
relating `started_at` and `completed_at`. -/
def TaskExecution.checkConstraints (e : TaskExecution) : Bool :=
  decide (0 < e.execution_number) &&
  (e.completed_at.isNone || e.started_at.isSome) &&
  (e.started_at.all fun st => decide (e.queued_at ≤ st)) &&
  (e.cpu_usage_percent.all fun c => decide (0 ≤ c) && decide (c ≤ 100))

/-- A `TaskExecution` row accepted by every check constraint whose
`completed_at` lies strictly before its `started_at`. -/
def skewedExecution : TaskExecution :=
  { id := 2, task_id := 1, node_id := none, execution_number := 1,
    status := .completed, queued_at := 0, started_at := some 5,
    completed_at := some 3, cpu_usage_percent := none, exit_code := some 0 }

/-- C3 counterexample: `skewedExecution` satisfies every check constraint of
`TaskExecution.__table_args__`, so the persistence boundary accepts it, yet
its `completed_at` (3) is strictly before its `started_at` (5): the schema
never compares `started_at` with `completed_at`, refuting
`started_at ≤ completed_at` as stated. -/
theorem taskExecution_timing_counterexample :
    TaskExecution.checkConstraints skewedExecution = true ∧
    ¬ (∀ st ct : Int, skewedExecution.started_at = some st →
        skewedExecution.completed_at = some ct → st ≤ ct) :=
  ⟨by decide, fun h => absurd (h 5 3 rfl rfl) (by decide)⟩

/-- C3 (amended): for every `TaskExecution` row accepted by the persistence
boundary, `queued_at ≤ started_at` whenever `started_at` is present, and
`completed_at` can only be set when `started_at` is set; the schema does not
constrain `completed_at` against `started_at`. -/
theorem taskExecution_timing_enforced (e : TaskExecution)
    (h : TaskExecution.checkConstraints e = true) :
    (∀ st, e.started_at = some st → e.queued_at ≤ st) ∧
    (e.completed_at.isSome → e.started_at.isSome) := by
  unfold TaskExecution.checkConstraints at h
  simp only [Bool.and_eq_true, Bool.or_eq_true] at h
  obtain ⟨⟨⟨-, h2⟩, h3⟩, -⟩ := h
  constructor
  · intro st hst
    rw [hst] at h3
    simpa using h3
  · intro hc
    rcases h2 with h2 | h2
    · rw [Option.isNone_iff_eq_none] at h2
      rw [h2] at hc
      simp at hc
    · exact h2

/-- A well-formed concrete `TaskExecution` used to witness the amended C3. -/
def sampleExecution : TaskExecution :=
  { id := 3, task_id := 1, node_id := some 4, execution_number := 1,
    status := .completed, queued_at := 0, started_at := some 1,
    completed_at := some 2, cpu_usage_percent := some 50, exit_code := some 0 }

theorem taskExecution_timing_enforced_witness :
    (∀ st, sampleExecution.started_at = some st → sampleExecution.queued_at ≤ st) ∧
    (sampleExecution.completed_at.isSome → sampleExecution.started_at.isSome) :=
  taskExecution_timing_enforced sampleExecution (by decide)

/-- Modelled from the spec: the Execution Tracker's `beginAttempt(taskId,
nodeId) -> ExecutionId` (spec §4.5) is not in `src/` — the schema only
declares the `task_executions` table and indexes it on
`(task_id, execution_number)`.  Per the spec, "`execution_number` assignment
and uniqueness per task is the tracker's responsibility": appending to the
task's append-only history a fresh row numbered `history.length + 1`, queued
now, not yet started or completed. -/
def beginAttempt (history : List TaskExecution) (tid : Nat) (nid : Option Nat)
    (now : Int) : List TaskExecution :=
  history ++
    [{ id := history.length, task_id := tid, node_id := nid,
       execution_number := (history.length : Int) + 1, status := .queued,
       queued_at := now, started_at := none, completed_at := none,
       cpu_usage_percent := none, exit_code := none }]

/-- Histories reachable through the Execution Tracker: the empty history, and
any history extended by `beginAttempt`. -/
inductive TrackerBuilt (tid : Nat) : List TaskExecution → Prop where
  | nil : TrackerBuilt tid []
  | step (h : List TaskExecution) (nid : Option Nat) (now : Int) :
      TrackerBuilt tid h → TrackerBuilt tid (beginAttempt h tid nid now)

/-- C2: for every task history produced by the Execution Tracker, the
`execution_number` values of its `TaskExecution` rows are exactly `1..N`
(`List.range' 1 N`), so they are strictly positive, start at 1, strictly
increase, and have no gaps and no duplicates; and every row passes the
schema's check constraints — of which only `execution_number > 0` touches
the numbering. -/
theorem execution_numbers_exactly_one_to_N (tid : Nat) (h : List TaskExecution)
    (hb : TrackerBuilt tid h) :
    h.map (fun e => e.execution_number) = (List.range' 1 h.length).map Int.ofNat ∧
    (h.map fun e => e.execution_number).Pairwise (· < ·) ∧
    ∀ e ∈ h, 0 < e.execution_number ∧ TaskExecution.checkConstraints e = true := by
  induction hb with
  | nil => exact ⟨rfl, List.Pairwise.nil, fun e he => absurd he (List.not_mem_nil e)⟩
  | step g nid now _ ih =>
    obtain ⟨ihmap, -, ihmem⟩ := ih
    have hmap : (beginAttempt g tid nid now).map (fun e => e.execution_number)
        = (List.range' 1 (beginAttempt g tid nid now).length).map Int.ofNat := by
      simp only [beginAttempt, List.map_append, List.map_cons, List.map_nil,
        List.length_append, List.length_cons, List.length_nil, Nat.zero_add,
        List.range'_concat, ihmap]
      congr 1
      simp only [List.cons.injEq, and_true, Int.ofNat_eq_natCast]
      omega
    refine ⟨hmap, ?_, ?_⟩
    · rw [hmap]
      exact List.pairwise_map.mpr
        ((List.pairwise_lt_range' 1 _).imp fun hab => Int.ofNat_lt.mpr hab)
    · intro e he
      simp only [beginAttempt, List.mem_append, List.mem_singleton] at he
      rcases he with he | rfl
      · exact ihmem e he
      · refine ⟨?_, ?_⟩
        · show (0 : Int) < (g.length : Int) + 1
          omega
        · simp only [TaskExecution.checkConstraints, Option.all_none, Option.isNone_none,
            Bool.true_or, Bool.and_true, Bool.true_and, decide_eq_true_eq]
          omega

theorem execution_numbers_exactly_one_to_N_witness :
    ((beginAttempt (beginAttempt [] 7 none 0) 7 (some 4) 5).map
        (fun e => e.execution_number)
      = (List.range' 1 (beginAttempt (beginAttempt [] 7 none 0) 7 (some 4) 5).length).map
          Int.ofNat) ∧
    ((beginAttempt (beginAttempt [] 7 none 0) 7 (some 4) 5).map
        (fun e => e.execution_number)).Pairwise (· < ·) ∧
    ∀ e ∈ beginAttempt (beginAttempt [] 7 none 0) 7 (some 4) 5,
      0 < e.execution_number ∧ TaskExecution.checkConstraints e = true :=
  execution_numbers_exactly_one_to_N 7 _
    (TrackerBuilt.step _ (some 4) 5 (TrackerBuilt.step _ none 0 TrackerBuilt.nil))

/-- `monitoring.py` `AlertSeverity`. -/
inductive AlertSeverity where
  | low | medium | high | critical
deriving DecidableEq, Repr

/-- `monitoring.py` `AlertStatus`: exactly four values, in source order. -/
inductive AlertStatus where
  | active | resolved | acknowledged | suppressed
deriving DecidableEq, Repr

/-- `monitoring.py` class `Alert`: the columns involved in its check
constraints, lifecycle and relationships (notification/metadata payload
columns elided). -/
structure Alert where
  id : Nat
  title : String
  description : String
  severity : AlertSeverity
  status : AlertStatus
  metric_id : Option Nat
  rule_id : Option Nat
  threshold_value : Option ℚ
  actual_value : Option ℚ
  triggered_at : Int
  acknowledged_at : Option Int
  resolved_at : Option Int
  acknowledged_by : Option Nat
  resolved_by : Option Nat
  escalation_level : Int
deriving DecidableEq, Repr

/-- The check constraints of `Alert.__table_args__` (monitoring.py lines
333-342): `non_negative_escalation`, `valid_acknowledge_time`,
`valid_resolve_time`.  Note the list never compares `acknowledged_at` with
`resolved_at`. -/
def Alert.checkConstraints (a : Alert) : Bool :=
  decide (0 ≤ a.escalation_level) &&
  (a.acknowledged_at.all fun t => decide (a.triggered_at ≤ t)) &&
  (a.resolved_at.all fun t => decide (a.triggered_at ≤ t))

/-- An `Alert` accepted by every check constraint whose `resolved_at` (5) lies
strictly before its `acknowledged_at` (10). -/
def skewedAlert : Alert :=
  { id := 1, title := "cpu high", description := "cpu above threshold",
    severity := .high, status := .resolved, metric_id := none, rule_id := none,
    threshold_value := some 90, actual_value := some 97, triggered_at := 0,
    acknowledged_at := some 10, resolved_at := some 5,
    acknowledged_by := some 2, resolved_by := some 2, escalation_level := 0 }

/-- C5 counterexample: `skewedAlert` passes every check constraint of
`Alert.__table_args__` although its `acknowledged_at` (10) is strictly after
its `resolved_at` (5): the schema only compares each of them against
`triggered_at`, so `acknowledged_at ≤ resolved_at` is not enforced. -/
theorem alert_timestamps_counterexample :
    Alert.checkConstraints skewedAlert = true ∧
    ¬ (∀ ta tr : Int, skewedAlert.acknowledged_at = some ta →
        skewedAlert.resolved_at = some tr → ta ≤ tr) :=
  ⟨by decide, fun h => absurd (h 10 5 rfl rfl) (by decide)⟩

/-- C5 (amended): for every `Alert` accepted by the persistence boundary,
`acknowledged_at ≥ triggered_at` and `resolved_at ≥ triggered_at` whenever
present; the schema does not order `acknowledged_at` against `resolved_at`. -/
theorem alert_timestamps_enforced (a : Alert)
    (h : Alert.checkConstraints a = true) :
    (∀ t, a.acknowledged_at = some t → a.triggered_at ≤ t) ∧
    (∀ t, a.resolved_at = some t → a.triggered_at ≤ t) := by
  unfold Alert.checkConstraints at h
  simp only [Bool.and_eq_true] at h
  obtain ⟨⟨-, h2⟩, h3⟩ := h
  constructor
  · intro t ht
    rw [ht] at h2
    simpa using h2
  · intro t ht
    rw [ht] at h3
    simpa using h3

/-- A well-formed concrete `Alert` used to witness the amended C5. -/
def sampleAlert : Alert :=
  { id := 2, title := "disk full", description := "storage above threshold",
    severity := .critical, status := .resolved, metric_id := some 3,
    rule_id := some 1, threshold_value := some 95, actual_value := some 99,
    triggered_at := 0, acknowledged_at := some 1, resolved_at := some 2,
    acknowledged_by := some 2, resolved_by := some 2, escalation_level := 1 }

theorem alert_timestamps_enforced_witness :
    (∀ t, sampleAlert.acknowledged_at = some t → sampleAlert.triggered_at ≤ t) ∧
    (∀ t, sampleAlert.resolved_at = some t → sampleAlert.triggered_at ≤ t) :=
  alert_timestamps_enforced sampleAlert (by decide)

/-- Creation of an `Alert` row: `title`, `description`, `severity` and the
source references are supplied; `status` has column default
`AlertStatus.ACTIVE` (monitoring.py:249-251) applied when no value is
supplied, `escalation_level` defaults to `0`, and the lifecycle timestamps
other than `triggered_at` (server default now) start NULL. -/
def mkAlert (title description : String) (severity : AlertSeverity)
    (status? : Option AlertStatus) (metric_id rule_id : Option Nat)
    (triggered_at : Int) : Alert :=
  { id := 0, title := title, description := description, severity := severity,
    status := status?.getD .active, metric_id := metric_id, rule_id := rule_id,
    threshold_value := none, actual_value := none, triggered_at := triggered_at,
    acknowledged_at := none, resolved_at := none,
    acknowledged_by := none, resolved_by := none, escalation_level := 0 }

/-- C8: a newly created `Alert` has status `active` unless a status is
explicitly supplied (in which case that status is stored), and every
`AlertStatus` value is one of exactly
{active, acknowledged, resolved, suppressed}. -/
theorem alert_status_default_and_domain :
    (∀ t d sv m r trig, (mkAlert t d sv none m r trig).status = AlertStatus.active) ∧
    (∀ t d sv st m r trig, (mkAlert t d sv (some st) m r trig).status = st) ∧
    (∀ s : AlertStatus,
      s = AlertStatus.active ∨ s = AlertStatus.acknowledged ∨
      s = AlertStatus.resolved ∨ s = AlertStatus.suppressed) :=
  ⟨fun _ _ _ _ _ _ => rfl, fun _ _ _ _ _ _ _ => rfl,
   fun s => by cases s <;> simp⟩

/-- `monitoring.py` class `AlertRule`: the columns involved in its check
constraints, statistics and behaviour (template/notification payload columns
elided). -/
structure AlertRule where
  id : Nat
  name : String
  metric_name : String
  condition_operator : String
  threshold_value : ℚ
  evaluation_window_seconds : Int
  severity : AlertSeverity
  enabled : Bool
  cooldown_seconds : Int
  max_alerts_per_hour : Option Int
  total_evaluations : Int
  total_alerts_generated : Int
  last_evaluation_at : Option Int
  last_alert_at : Option Int
deriving DecidableEq, Repr

/-- The check constraints of `AlertRule.__table_args__` (monitoring.py lines
408-422): `positive_evaluation_window`, `non_negative_cooldown`,
`positive_max_alerts`, `non_negative_evaluations`,
`non_negative_alerts_generated`, `valid_alert_count`. -/
def AlertRule.checkConstraints (r : AlertRule) : Bool :=
  decide (0 < r.evaluation_window_seconds) &&
  decide (0 ≤ r.cooldown_seconds) &&
  (r.max_alerts_per_hour.all fun m => decide (0 < m)) &&
  decide (0 ≤ r.total_evaluations) &&
  decide (0 ≤ r.total_alerts_generated) &&
  decide (r.total_alerts_generated ≤ r.total_evaluations)

/-- C9: for every `AlertRule` accepted by the persistence boundary, the
counters satisfy `0 ≤ total_alerts_generated ≤ total_evaluations` (and
`total_evaluations` itself is non-negative): a rule never records more
generated alerts than evaluations. -/
theorem alertRule_counters_bounded (r : AlertRule)
    (h : AlertRule.checkConstraints r = true) :
    0 ≤ r.total_alerts_generated ∧
    r.total_alerts_generated ≤ r.total_evaluations ∧
    0 ≤ r.total_evaluations := by
  unfold AlertRule.checkConstraints at h
  simp only [Bool.and_eq_true, decide_eq_true_eq] at h
  obtain ⟨⟨⟨⟨⟨-, -⟩, -⟩, h4⟩, h5⟩, h6⟩ := h
  exact ⟨h5, h6, h4⟩

/-- A well-formed concrete `AlertRule` used to witness C9. -/
def sampleRule : AlertRule :=
  { id := 1, name := "cpu rule", metric_name := "cpu_usage",
    condition_operator := ">", threshold_value := 90,
    evaluation_window_seconds := 300, severity := .high, enabled := true,
    cooldown_seconds := 300, max_alerts_per_hour := some 10,
    total_evaluations := 12, total_alerts_generated := 2,
    last_evaluation_at := some 100, last_alert_at := some 90 }

theorem alertRule_counters_bounded_witness :
    0 ≤ sampleRule.total_alerts_generated ∧
    sampleRule.total_alerts_generated ≤ sampleRule.total_evaluations ∧
    0 ≤ sampleRule.total_evaluations :=
  alertRule_counters_bounded sampleRule (by decide)

/-- Database-level semantics of deleting an `AlertRule`: `Alert.rule_id` is a
foreign key declared `ondelete="SET NULL"` (monitoring.py:268-273), so every
row referencing the deleted rule survives with `rule_id` nulled and all its
other columns unchanged. -/
def deleteRuleSetNull (alerts : List Alert) (rid : Nat) : List Alert :=
  alerts.map fun a => if a.rule_id = some rid then { a with rule_id := none } else a

/-- ORM-level semantics of deleting an `AlertRule`: the `AlertRule.alerts`
relationship is declared `cascade="all, delete-orphan"` (monitoring.py:400-402),
so deleting a rule through the session deletes every `Alert` linked to it. -/
def deleteRuleCascade (alerts : List Alert) (rid : Nat) : List Alert :=
  alerts.filter fun a => decide (a.rule_id ≠ some rid)

/-- C4 (code bug): the two deletion semantics declared by the source
contradict each other at a store holding one alert linked to rule 1.  The ORM
relationship `cascade="all, delete-orphan"` deletes the alert when its rule is
deleted, while the claim — and the foreign key's own `ondelete="SET NULL"` —
has it survive with `rule_id` nulled and all other fields unchanged. -/
theorem alert_rule_delete_divergence :
    deleteRuleCascade [sampleAlert] 1 = [] ∧
    deleteRuleSetNull [sampleAlert] 1 = [{ sampleAlert with rule_id := none }] :=
  ⟨rfl, rfl⟩

/-- `node.py` `ResourceStatus`: coarse advisory resource flag. -/
inductive ResourceStatus where
  | available | allocated | reserved | unavailable
deriving DecidableEq, Repr

/-- `node.py` class `NodeCapabilities`: one-to-one with a node; the declared
hardware capacities, allocation caps and advisory status (descriptive text
columns elided). `Integer` columns are `Int`, `Float` columns are `ℚ`. -/
structure NodeCapabilities where
  node_id : Nat
  cpu_cores : Int
  cpu_threads : Int
  cpu_frequency_mhz : Option Int
  memory_total_gb : ℚ
  memory_available_gb : ℚ
  storage_total_gb : ℚ
  storage_available_gb : ℚ
  bandwidth_upload_mbps : Option ℚ
  bandwidth_download_mbps : Option ℚ
  network_latency_ms : Option ℚ
  max_cpu_allocation_percent : Int
  max_memory_allocation_percent : Int
  max_storage_allocation_gb : Option ℚ
  max_bandwidth_allocation_mbps : Option ℚ
  resource_status : ResourceStatus
deriving DecidableEq, Repr

/-- The check constraints of `NodeCapabilities.__table_args__` (node.py lines
192-209): `positive_cpu_cores`, `valid_cpu_threads`, `positive_memory_total`,
`valid_memory_available`, `positive_storage_total`,
`valid_storage_available`, `valid_cpu_allocation`,
`valid_memory_allocation`. -/
def NodeCapabilities.checkConstraints (c : NodeCapabilities) : Bool :=
  decide (0 < c.cpu_cores) &&
  decide (c.cpu_cores ≤ c.cpu_threads) &&
  decide (0 < c.memory_total_gb) &&
  decide (c.memory_available_gb ≤ c.memory_total_gb) &&
  decide (0 < c.storage_total_gb) &&
  decide (c.storage_available_gb ≤ c.storage_total_gb) &&
  (decide (0 < c.max_cpu_allocation_percent) &&
    decide (c.max_cpu_allocation_percent ≤ 100)) &&
  (decide (0 < c.max_memory_allocation_percent) &&
    decide (c.max_memory_allocation_percent ≤ 100))

/-- C6: for every `NodeCapabilities` record accepted by the persistence
boundary, each declared available capacity is bounded by the corresponding
declared total, and the totals are strictly positive. -/
theorem nodeCapabilities_available_bounded (c : NodeCapabilities)
    (h : NodeCapabilities.checkConstraints c = true) :
    c.memory_available_gb ≤ c.memory_total_gb ∧
    c.storage_available_gb ≤ c.storage_total_gb ∧
    0 < c.memory_total_gb ∧ 0 < c.storage_total_gb := by
  unfold NodeCapabilities.checkConstraints at h
  simp only [Bool.and_eq_true, decide_eq_true_eq] at h
  obtain ⟨⟨⟨⟨⟨⟨⟨-, -⟩, h3⟩, h4⟩, h5⟩, h6⟩, -⟩, -⟩ := h
  exact ⟨h4, h6, h3, h5⟩

/-- A well-formed concrete `NodeCapabilities` row used as witness. -/
def sampleCapabilities : NodeCapabilities :=
  { node_id := 4, cpu_cores := 8, cpu_threads := 16,
    cpu_frequency_mhz := some 3200, memory_total_gb := 32,
    memory_available_gb := 24, storage_total_gb := 500,
    storage_available_gb := 200, bandwidth_upload_mbps := some 100,
    bandwidth_download_mbps := some 500, network_latency_ms := some 20,
    max_cpu_allocation_percent := 80, max_memory_allocation_percent := 80,
    max_storage_allocation_gb := some 400,
    max_bandwidth_allocation_mbps := none, resource_status := .available }

theorem nodeCapabilities_available_bounded_witness :
    sampleCapabilities.memory_available_gb ≤ sampleCapabilities.memory_total_gb ∧
    sampleCapabilities.storage_available_gb ≤ sampleCapabilities.storage_total_gb ∧
    0 < sampleCapabilities.memory_total_gb ∧ 0 < sampleCapabilities.storage_total_gb :=
  nodeCapabilities_available_bounded sampleCapabilities (by decide)

/-- C10: for every `NodeCapabilities` record accepted by the persistence
boundary, `cpu_cores` is strictly positive and `cpu_threads ≥ cpu_cores`: a
node never declares fewer hardware threads than cores. -/
theorem nodeCapabilities_threads_ge_cores (c : NodeCapabilities)
    (h : NodeCapabilities.checkConstraints c = true) :
    0 < c.cpu_cores ∧ c.cpu_cores ≤ c.cpu_threads := by
  unfold NodeCapabilities.checkConstraints at h
  simp only [Bool.and_eq_true, decide_eq_true_eq] at h
  exact ⟨h.1.1.1.1.1.1.1, h.1.1.1.1.1.1.2⟩

theorem nodeCapabilities_threads_ge_cores_witness :
    0 < sampleCapabilities.cpu_cores ∧
    sampleCapabilities.cpu_cores ≤ sampleCapabilities.cpu_threads :=
  nodeCapabilities_threads_ge_cores sampleCapabilities (by decide)

/-- `task.py` class `TaskResource`: a task's declared resource requirement
plus its allocation window (region/cost/text payload columns elided). -/
structure TaskResource where
  id : Nat
  task_id : Nat
  cpu_cores_required : ℚ
  memory_gb_required : ℚ
  storage_gb_required : ℚ
  gpu_required : Bool
  gpu_memory_gb : Option ℚ
  bandwidth_mbps_required : Option ℚ
  network_latency_max_ms : Option ℚ
  allocated_node_id : Option Nat
  allocated_at : Option Int
  released_at : Option Int
deriving DecidableEq, Repr

/-- The check constraints of `TaskResource.__table_args__` (task.py lines
335-355): `positive_cpu_requirement`, `positive_memory_requirement`,
`positive_storage_requirement`, `positive_gpu_memory`, `positive_bandwidth`,
`positive_latency`, `valid_release_time`, `valid_allocation_period`. -/
def TaskResource.checkConstraints (r : TaskResource) : Bool :=
  decide (0 < r.cpu_cores_required) &&
  decide (0 < r.memory_gb_required) &&
  decide (0 < r.storage_gb_required) &&
  (r.gpu_memory_gb.all fun g => decide (0 < g)) &&
  (r.bandwidth_mbps_required.all fun b => decide (0 < b)) &&
  (r.network_latency_max_ms.all fun l => decide (0 < l)) &&
  (r.released_at.isNone || r.allocated_at.isSome) &&
  (r.released_at.all fun rel => r.allocated_at.all fun al => decide (al ≤ rel))

/-- Persistence boundary for `task_resources`: an INSERT stores the row only
if every check constraint holds, otherwise it fails and stores nothing. -/
def insertTaskResource (db : List TaskResource) (r : TaskResource) :
    Option (List TaskResource) :=
  if TaskResource.checkConstraints r then some (r :: db) else none

/-- C7: a write of a `TaskResource` whose required quantities are not all
strictly positive is rejected at the persistence boundary.  An accepted
insert implies `cpu_cores_required`, `memory_gb_required` and
`storage_gb_required` are strictly positive and `gpu_memory_gb`,
`bandwidth_mbps_required`, `network_latency_max_ms` are strictly positive
when present — and a row failing any check constraint stores nothing. -/
theorem taskResource_positivity_enforced (db : List TaskResource)
    (r : TaskResource) :
    (∀ db', insertTaskResource db r = some db' →
      0 < r.cpu_cores_required ∧ 0 < r.memory_gb_required ∧
      0 < r.storage_gb_required ∧
      (∀ g, r.gpu_memory_gb = some g → 0 < g) ∧
      (∀ b, r.bandwidth_mbps_required = some b → 0 < b) ∧
      (∀ l, r.network_latency_max_ms = some l → 0 < l) ∧
      db' = r :: db) ∧
    (TaskResource.checkConstraints r = false → insertTaskResource db r = none) := by
  constructor
  · intro db' hdb
    unfold insertTaskResource at hdb
    by_cases hc : TaskResource.checkConstraints r = true
    · rw [hc] at hdb
      simp only [if_true, Option.some.injEq] at hdb
      unfold TaskResource.checkConstraints at hc
      simp only [Bool.and_eq_true, decide_eq_true_eq] at hc
      obtain ⟨⟨⟨⟨⟨⟨⟨h1, h2⟩, h3⟩, h4⟩, h5⟩, h6⟩, -⟩, -⟩ := hc
      refine ⟨h1, h2, h3, ?_, ?_, ?_, hdb.symm⟩
      · intro g hg
        rw [hg] at h4
        simpa using h4
      · intro b hb
        rw [hb] at h5
        simpa using h5
      · intro l hl
        rw [hl] at h6
        simpa using h6
    · rw [Bool.not_eq_true] at hc
      rw [hc] at hdb
      simp at hdb
  · intro hf
    simp [insertTaskResource, hf]

/-- A well-formed concrete `TaskResource` requirement used as witness. -/
def sampleResource : TaskResource :=
  { id := 5, task_id := 1, cpu_cores_required := 2, memory_gb_required := 4,
    storage_gb_required := 10, gpu_required := false, gpu_memory_gb := none,
    bandwidth_mbps_required := some 100, network_latency_max_ms := some 50,
    allocated_node_id := none, allocated_at := none, released_at := none }

theorem taskResource_positivity_enforced_witness :
    0 < sampleResource.cpu_cores_required ∧
    0 < sampleResource.memory_gb_required ∧
    0 < sampleResource.storage_gb_required ∧
    (∀ g, sampleResource.gpu_memory_gb = some g → 0 < g) ∧
    (∀ b, sampleResource.bandwidth_mbps_required = some b → 0 < b) ∧
    (∀ l, sampleResource.network_latency_max_ms = some l → 0 < l) ∧
    [sampleResource] = [sampleResource] :=
  (taskResource_positivity_enforced [] sampleResource).1 [sampleResource] (by decide)

end P2P
